import Mathlib

/-!
Shallow embedding of the live-migration scheduler
(`src/nova/scheduler/driver.py`, class `Scheduler`).

The driver reads service/instance/volume records from a repository (the
`nova.db` collaborator), probes remote agents over RPC, and mutates
instance/volume state on success.  We model the repository and the RPC
oracles as fields of a `World`, and every driver method as a pure
function on that world.  Fallible Python code (raised exceptions) is
embedded as `Except Err`; functions that issue RPCs additionally return
the list of effects (RPC calls, state writes) issued before they
returned or raised, mirroring the fact that a Python exception aborts
the rest of the body but leaves already-issued effects in place.
-/

namespace Nova

/-- Power states of an instance.  Modelled from the spec:
`nova.compute.power_state` is not under src/; the spec's data model
lists the enum RUNNING, PAUSED, SUSPENDED, SHUTDOWN (plus a no-state). -/
inductive PowerState where
  | noState
  | running
  | paused
  | suspended
  | shutdown
deriving DecidableEq, Repr

/-- Role-specific attributes of a compute service record
(`compute_service` rows: memory totals, hypervisor identity, CPU blob). -/
structure ComputeService where
  memory_mb : Int
  memory_mb_used : Int
  hypervisor_type : String
  hypervisor_version : Int
  cpu_info : String
deriving DecidableEq, Repr

/-- A registered service (agent) record.  `updated_at` is the optional
heartbeat timestamp, `created_at` the registration timestamp; compute
services carry their `compute_service` rows. -/
structure Service where
  host : String
  topic : String
  updated_at : Option Int
  created_at : Int
  compute_service : List ComputeService
deriving DecidableEq, Repr

/-- An attached block-storage volume. -/
structure Volume where
  id : Nat
  status : String
deriving DecidableEq, Repr

/-- An instance (workload) record as read by the scheduler. -/
structure Instance where
  hostname : String
  state : PowerState
  state_description : String
  host : String
  launched_on : String
  memory_mb : Int
  volumes : List Volume
deriving DecidableEq, Repr

/-- The exception kinds raised by the driver: `exception.NotFound`,
`exception.Invalid msg`, `exception.NotEmpty msg`, `rpc.RemoteError`,
and a Python `IndexError` for out-of-range list indexing (`xs[0]` on an
empty list). -/
inductive Err where
  | notFound
  | invalid (msg : String)
  | notEmpty (msg : String)
  | remoteError
  | indexError
deriving DecidableEq, Repr

/-- The kind (class) of an error, forgetting the message payload. -/
inductive ErrKind where
  | notFoundK
  | invalidK
  | notEmptyK
  | remoteK
  | indexK
deriving DecidableEq, Repr

def Err.kind : Err → ErrKind
  | .notFound => .notFoundK
  | .invalid _ => .invalidK
  | .notEmpty _ => .notEmptyK
  | .remoteError => .remoteK
  | .indexError => .indexK

/-- The kind of the error of a failed computation, `none` on success. -/
def exceptKind : Except Err α → Option ErrKind
  | .ok _ => none
  | .error e => some e.kind

def isError : Except Err α → Bool
  | .ok _ => false
  | .error _ => true

/-- Outcome of the remote `confirm_tmpfile` call at the source host:
it can fail with a transport error (`rpc.RemoteError`) or with
`exception.NotFound` (the file is not visible at the source). -/
inductive ConfirmErr where
  | remoteError
  | notFound
deriving DecidableEq, Repr

/-- The world a validation call runs against: the repository's records,
the clock and liveness threshold (`FLAGS.service_down_time`), and the
response behaviour of the remote agents for the three RPC methods the
driver issues. -/
structure World where
  now : Int
  service_down_time : Int
  instances : List (Nat × Instance)
  volumes : List (Nat × String)
  servicesByTopic : String → List Service
  computeByHost : String → List Service
  mktmpfileResp : String → Except Unit String
  confirmResp : String → String → Except ConfirmErr Unit
  compareCpuResp : String → String → Except Unit Unit

/-- Observable effects: RPC calls issued to an agent queue, and
repository writes (instance state, volume status). -/
inductive Eff where
  | rpcCall (method : String) (queue : String)
  | setInstanceState (iid : Nat) (st : PowerState) (desc : String)
  | volumeUpdate (vid : Nat) (status : String)
deriving DecidableEq, Repr

def Eff.isWrite : Eff → Bool
  | .rpcCall _ _ => false
  | .setInstanceState _ _ _ => true
  | .volumeUpdate _ _ => true

/-- The repository-write effects of a trace. -/
def effWrites (t : List Eff) : List Eff := t.filter Eff.isWrite

/-- The RPC-call effects of a trace. -/
def effRpcs (t : List Eff) : List Eff := t.filter fun e => ! e.isWrite

/-- `db.instance_get`: fetch an instance record, `NotFound` if absent.
(The repository interface: `getWorkload(id) -> Workload | fails NotFound`.) -/
def instance_get (w : World) (instance_id : Nat) : Except Err Instance :=
  match w.instances.lookup instance_id with
  | some i => .ok i
  | none => .error Err.notFound

/-- `db.service_get_all_by_topic`: all service records for a topic. -/
def service_get_all_by_topic (w : World) (topic : String) : List Service :=
  w.servicesByTopic topic

/-- Modelled from the spec: `db.service_get_all_compute_by_host` is not
under src/; per the spec's Fleet Directory contract,
`computeServicesByHost(host)` returns the host's compute services and
fails (NotFound) if there are none. -/
def service_get_all_compute_by_host (w : World) (host : String) :
    Except Err (List Service) :=
  match w.computeByHost host with
  | [] => .error Err.notFound
  | s :: rest => .ok (s :: rest)

/-- Modelled from the spec: `db.queue_get_for` is not under src/; the
RPC surface is addressed by a topic+host queue. -/
def queue_get_for (topic : String) (host : String) : String :=
  topic ++ "." ++ host

/-- Modelled from the spec: `FLAGS.compute_topic` is not under src/; the
compute agents' topic is "compute". -/
def compute_topic : String := "compute"

/-- `db.instance_set_state`: write an instance's power state and
state-description. -/
def instance_set_state (w : World) (instance_id : Nat) (st : PowerState)
    (desc : String) : World :=
  { w with instances := w.instances.map fun p =>
      if p.1 = instance_id then
        (p.1, { p.2 with state := st, state_description := desc })
      else p }

/-- `db.volume_update`: write a volume's status in the repository. -/
def volume_update (w : World) (vid : Nat) (status : String) : World :=
  { w with volumes := w.volumes.map fun p =>
      if p.1 = vid then (p.1, status) else p }

/-- `Scheduler.service_is_up`: a service is up iff the elapsed time
since its last heartbeat (`updated_at or created_at`) is strictly below
`FLAGS.service_down_time`. -/
def service_is_up (w : World) (service : Service) : Bool :=
  let last_heartbeat := service.updated_at.getD service.created_at
  let elapsed := w.now - last_heartbeat
  decide (elapsed < w.service_down_time)

/-- The spec's own wording of liveness, for comparison with the code:
"now - max(updated_at, created_at) < threshold" (§3 data model). -/
def serviceUpSpecMax (w : World) (service : Service) : Bool :=
  let hb := match service.updated_at with
    | some u => max u service.created_at
    | none => service.created_at
  decide (w.now - hb < w.service_down_time)

/-- `Scheduler.hosts_up`: the hosts of the topic's live services, in
repository order (a Python list comprehension with a liveness filter). -/
def hosts_up (w : World) (topic : String) : List String :=
  (service_get_all_by_topic w topic).filterMap fun service =>
    if service_is_up w service then some service.host else none

/-- `Scheduler._live_migration_src_check`. -/
def live_migration_src_check (w : World) (instance_ref : Instance) :
    Except Err Unit :=
  if PowerState.running ≠ instance_ref.state ∨
      "running" ≠ instance_ref.state_description then
    .error (.invalid ("Instance(" ++ instance_ref.hostname ++ ") is not running"))
  else
    let volumeCheck : Except Err Unit :=
      if instance_ref.volumes.length ≠ 0 then
        match service_get_all_by_topic w "volume" with
        | [] => .error (.invalid "volume node is not alive(time synchronize problem?)")
        | s :: _ =>
          if ! service_is_up w s then
            .error (.invalid "volume node is not alive(time synchronize problem?)")
          else .ok ()
      else .ok ()
    match volumeCheck with
    | .error e => .error e
    | .ok _ =>
      let src := instance_ref.host
      match service_get_all_compute_by_host w src with
      | .error e => .error e
      | .ok [] => .error Err.indexError
      | .ok (s :: _) =>
        if ! service_is_up w s then
          .error (.invalid (src ++ " is not alive(time synchronize problem?)"))
        else .ok ()

/-- `Scheduler.has_enough_resources`: memory headroom check at the
destination. -/
def has_enough_resources (w : World) (instance_ref : Instance)
    (dest : String) : Except Err Unit :=
  let ec2_id := instance_ref.hostname
  match service_get_all_compute_by_host w dest with
  | .error e => .error e
  | .ok [] => .error Err.indexError
  | .ok (sr :: _) =>
    match sr.compute_service with
    | [] => .error Err.indexError
    | compute_service_ref :: _ =>
      let mem_total := compute_service_ref.memory_mb
      let mem_used := compute_service_ref.memory_mb_used
      let mem_avail := mem_total - mem_used
      let mem_inst := instance_ref.memory_mb
      if mem_avail ≤ mem_inst then
        .error (.notEmpty (ec2_id ++ " is not capable to migrate " ++ dest))
      else .ok ()

/-- `Scheduler._live_migration_dest_check`. -/
def live_migration_dest_check (w : World) (instance_ref : Instance)
    (dest : String) : Except Err Unit :=
  match service_get_all_compute_by_host w dest with
  | .error e => .error e
  | .ok [] => .error Err.indexError
  | .ok (dservice_ref :: _) =>
    if ! service_is_up w dservice_ref then
      .error (.invalid (dest ++ " is not alive(time synchronize problem?)"))
    else if dest = instance_ref.host then
      .error (.invalid (dest ++ " is where " ++ instance_ref.hostname ++
        " is running now. choose other host."))
    else has_enough_resources w instance_ref dest

/-- `Scheduler.mounted_on_same_shared_storage`: the two-step remote
probe.  Returns the probe outcome together with the RPC calls issued
(a raised exception cannot undo an RPC that already went out). -/
def mounted_on_same_shared_storage (w : World) (instance_ref : Instance)
    (dest : String) : Except Err Unit × List Eff :=
  let src := instance_ref.host
  let dst_t := queue_get_for compute_topic dest
  let src_t := queue_get_for compute_topic src
  match w.mktmpfileResp dst_t with
  | .error _ => (.error Err.remoteError, [Eff.rpcCall "mktmpfile" dst_t])
  | .ok filename =>
    match w.confirmResp src_t filename with
    | .error ConfirmErr.remoteError =>
      (.error Err.remoteError,
        [Eff.rpcCall "mktmpfile" dst_t, Eff.rpcCall "confirm_tmpfile" src_t])
    | .error ConfirmErr.notFound =>
      (.error Err.notFound,
        [Eff.rpcCall "mktmpfile" dst_t, Eff.rpcCall "confirm_tmpfile" src_t])
    | .ok _ =>
      (.ok (),
        [Eff.rpcCall "mktmpfile" dst_t, Eff.rpcCall "confirm_tmpfile" src_t])

/-- `Scheduler._live_migration_common_check`: shared-storage probe, then
hypervisor identity of the *launch* host versus the destination, then
the remote CPU-compatibility probe. -/
def live_migration_common_check (w : World) (instance_ref : Instance)
    (dest : String) : Except Err Unit × List Eff :=
  match mounted_on_same_shared_storage w instance_ref dest with
  | (.error e, t) => (.error e, t)
  | (.ok _, t) =>
    match service_get_all_compute_by_host w dest with
    | .error e => (.error e, t)
    | .ok [] => (.error Err.indexError, t)
    | .ok (dsr :: _) =>
      match dsr.compute_service with
      | [] => (.error Err.indexError, t)
      | dservice_ref :: _ =>
        match service_get_all_compute_by_host w instance_ref.launched_on with
        | .error Err.notFound =>
          (.error (.invalid ("host " ++ instance_ref.launched_on ++
            " where instance was launched does not exist.")), t)
        | .error e => (.error e, t)
        | .ok [] => (.error Err.indexError, t)
        | .ok (osr :: _) =>
          match osr.compute_service with
          | [] => (.error Err.indexError, t)
          | oservice_ref :: _ =>
            if oservice_ref.hypervisor_type ≠ dservice_ref.hypervisor_type then
              (.error (.invalid ("Different hypervisor type(" ++
                oservice_ref.hypervisor_type ++ "->" ++
                dservice_ref.hypervisor_type ++ ")")), t)
            else if oservice_ref.hypervisor_version > dservice_ref.hypervisor_version then
              (.error (.invalid "Older hypervisor version"), t)
            else
              let dst_t := queue_get_for compute_topic dest
              match w.compareCpuResp dst_t oservice_ref.cpu_info with
              | .error _ =>
                (.error Err.remoteError, t ++ [Eff.rpcCall "compare_cpu" dst_t])
              | .ok _ => (.ok (), t ++ [Eff.rpcCall "compare_cpu" dst_t])

/-- `Scheduler.schedule_live_migration`: the whole pipeline.  Returns
the call outcome (the pre-transition source host on success), the final
world, and the trace of effects issued. -/
def schedule_live_migration (w : World) (instance_id : Nat) (dest : String) :
    Except Err String × World × List Eff :=
  match instance_get w instance_id with
  | .error e => (.error e, w, [])
  | .ok instance_ref =>
    match live_migration_src_check w instance_ref with
    | .error e => (.error e, w, [])
    | .ok _ =>
      match live_migration_dest_check w instance_ref dest with
      | .error e => (.error e, w, [])
      | .ok _ =>
        match live_migration_common_check w instance_ref dest with
        | (.error e, t) => (.error e, w, t)
        | (.ok _, t) =>
          let w1 := instance_set_state w instance_id PowerState.paused "migrating"
          let w2 := instance_ref.volumes.foldl
            (fun wa v => volume_update wa v.id "migrating") w1
          (.ok instance_ref.host, w2,
            t ++ [Eff.setInstanceState instance_id PowerState.paused "migrating"] ++
              instance_ref.volumes.map fun v => Eff.volumeUpdate v.id "migrating")

/-! ### Concrete worlds used by witnesses and counterexamples -/

/-- A minimal world: empty repository, failing RPC transport. -/
def baseWorld : World where
  now := 1000
  service_down_time := 60
  instances := []
  volumes := []
  servicesByTopic := fun _ => []
  computeByHost := fun _ => []
  mktmpfileResp := fun _ => .error ()
  confirmResp := fun _ _ => .ok ()
  compareCpuResp := fun _ _ => .ok ()

/-- A compute service whose heartbeat is fresh at `baseWorld.now`. -/
def svcFresh : Service where
  host := "h1"
  topic := "compute"
  updated_at := some 1000
  created_at := 900
  compute_service := []

/-- A service created after its last update: `updated_at` is stale
(elapsed 100) while `created_at` is current. -/
def svcStaleUpdate : Service where
  host := "h"
  topic := "compute"
  updated_at := some 0
  created_at := 100
  compute_service := []

/-- World observed at time 100 (threshold 60). -/
def worldAt100 : World := { baseWorld with now := 100 }

/-- A service exactly at the liveness boundary for `baseWorld.now`:
heartbeat age equals the threshold. -/
def svcBoundary : Service where
  host := "h"
  topic := "compute"
  updated_at := some 940
  created_at := 900
  compute_service := []

/-- Two live services registered for the same host under "compute". -/
def worldDupHosts : World :=
  { baseWorld with servicesByTopic := fun t =>
      if t = "compute" then [svcFresh, { svcFresh with created_at := 950 }] else [] }

/-! ### Theorems for the claims -/

/-- **C7** (counterexample).  The claim derives liveness from
`now - max(updated_at, created_at)`.  On a record whose `updated_at`
is present but older than `created_at`, the code uses `updated_at`
(Python `updated_at or created_at`), so the code reports the service
down while the claim's max-formula reports it up. -/
theorem c7_counterexample :
    service_is_up worldAt100 svcStaleUpdate = false ∧
      serviceUpSpecMax worldAt100 svcStaleUpdate = true := by
  decide

/-- **C7** (amended).  `service_is_up` derives liveness as
`now - (updated_at if present else created_at) < threshold`; this agrees
with the spec's max-formula whenever `updated_at`, when present, is at
least `created_at`. -/
theorem c7_heartbeat_formula :
    (∀ w s, service_is_up w s =
        decide (w.now - s.updated_at.getD s.created_at < w.service_down_time)) ∧
      ∀ w s u, s.updated_at = some u → s.created_at ≤ u →
        service_is_up w s = serviceUpSpecMax w s := by
  refine ⟨fun w s => rfl, fun w s u hu hle => ?_⟩
  unfold service_is_up serviceUpSpecMax
  rw [hu]
  simp [max_eq_left hle]

/-- **C7** (witness for the amended theorem): a concrete record with
`created_at ≤ updated_at`, where the code and the max-formula agree. -/
theorem c7_heartbeat_formula_witness :
    service_is_up baseWorld svcFresh = serviceUpSpecMax baseWorld svcFresh :=
  c7_heartbeat_formula.2 baseWorld svcFresh 1000 rfl (by decide)

/-- **C8**.  For every threshold T and heartbeat age
A = now - (updated_at if present else created_at), `service_is_up` is
true iff A < T, and at the boundary A = T it is false. -/
theorem c8_liveness_strict :
    ∀ w s, (service_is_up w s = true ↔
        w.now - s.updated_at.getD s.created_at < w.service_down_time) ∧
      (w.now - s.updated_at.getD s.created_at = w.service_down_time →
        service_is_up w s = false) := by
  intro w s
  unfold service_is_up
  refine ⟨by simp, fun h => ?_⟩
  simp [h]

/-- **C8** (witness): a concrete boundary case, heartbeat age exactly
equal to the threshold, reported down. -/
theorem c8_liveness_strict_witness :
    service_is_up baseWorld svcBoundary = false :=
  (c8_liveness_strict baseWorld svcBoundary).2 (by decide)

/-- Python's list comprehension with a guard, as `filterMap`, equals
filter-then-map. -/
theorem filterMap_guard_eq_filter_map (p : α → Bool) (f : α → β) (l : List α) :
    (l.filterMap fun a => if p a then some (f a) else none) =
      (l.filter p).map f := by
  induction l with
  | nil => rfl
  | cons a l ih =>
    by_cases h : p a <;> simp [List.filterMap_cons, List.filter_cons, h, ih]

/-- **C10**.  `hosts_up` yields one host entry per live service of the
topic, in repository order; a host with two live services under the
topic appears twice (no de-duplication). -/
theorem c10_hosts_up_per_service :
    (∀ w topic, hosts_up w topic =
        ((service_get_all_by_topic w topic).filter fun s =>
          service_is_up w s).map Service.host) ∧
      hosts_up worldDupHosts "compute" = ["h1", "h1"] :=
  ⟨fun w topic => filterMap_guard_eq_filter_map _ _ _, by decide⟩

/-- A compute-service row with 1024 MB total and the given use. -/
def csCap (used : Int) : ComputeService where
  memory_mb := 1024
  memory_mb_used := used
  hypervisor_type := "qemu"
  hypervisor_version := 1
  cpu_info := "cpu"

/-- A live compute service on host "B" with the given memory use. -/
def svcCapB (used : Int) : Service where
  host := "B"
  topic := "compute"
  updated_at := some 1000
  created_at := 900
  compute_service := [csCap used]

/-- Destination world for the capacity check: host "B" has 1024 MB
total and `used` MB used. -/
def worldCap (used : Int) : World :=
  { baseWorld with computeByHost := fun h =>
      if h = "B" then [svcCapB used] else [] }

/-- An instance requesting 512 MB. -/
def inst512 : Instance where
  hostname := "i-4"
  state := PowerState.running
  state_description := "running"
  host := "A"
  launched_on := "A"
  memory_mb := 512
  volumes := []

/-- **C4**.  `has_enough_resources` computes
available = memory_mb - memory_mb_used of the destination's compute
service and succeeds iff available > requested (strictly); on
available ≤ requested it fails with a NotEmpty error, a kind distinct
from Invalid. -/
theorem c4_capacity_strict :
    ∀ (w : World) (inst : Instance) (dest : String) (sd : Service)
      (rd : List Service) (csd : ComputeService) (cd : List ComputeService),
      w.computeByHost dest = sd :: rd →
      sd.compute_service = csd :: cd →
      (has_enough_resources w inst dest = .ok () ↔
          csd.memory_mb - csd.memory_mb_used > inst.memory_mb) ∧
        (csd.memory_mb - csd.memory_mb_used ≤ inst.memory_mb →
          has_enough_resources w inst dest =
            .error (.notEmpty (inst.hostname ++ " is not capable to migrate " ++ dest)) ∧
          (Err.notEmpty (inst.hostname ++ " is not capable to migrate " ++ dest)).kind ≠
            ErrKind.invalidK) := by
  intro w inst dest sd rd csd cd hd hcs
  have he : has_enough_resources w inst dest =
      if csd.memory_mb - csd.memory_mb_used ≤ inst.memory_mb then
        .error (.notEmpty (inst.hostname ++ " is not capable to migrate " ++ dest))
      else .ok () := by
    simp only [has_enough_resources, service_get_all_compute_by_host, hd, hcs]
  rw [he]
  by_cases hle : csd.memory_mb - csd.memory_mb_used ≤ inst.memory_mb
  · rw [if_pos hle]
    refine ⟨⟨fun h => by simp at h, fun h => absurd h (by omega)⟩,
      fun _ => ⟨rfl, by simp [Err.kind]⟩⟩
  · rw [if_neg hle]
    exact ⟨⟨fun _ => by omega, fun _ => rfl⟩, fun hc => absurd hc hle⟩

/-- **C4** (witness): available = requested (512 = 512) fails NotEmpty;
available = requested + 1 (513 > 512) succeeds. -/
theorem c4_capacity_strict_witness :
    has_enough_resources (worldCap 512) inst512 "B" =
        .error (.notEmpty "i-4 is not capable to migrate B") ∧
      has_enough_resources (worldCap 511) inst512 "B" = .ok () :=
  ⟨((c4_capacity_strict (worldCap 512) inst512 "B" (svcCapB 512) []
        (csCap 512) [] (by decide) rfl).2 (by decide)).1,
    (c4_capacity_strict (worldCap 511) inst512 "B" (svcCapB 511) []
        (csCap 511) [] (by decide) rfl).1.mpr (by decide)⟩

/-- World where the destination's `mktmpfile` RPC fails with a
transport error. -/
def worldMkFail : World := baseWorld

/-- World where `mktmpfile` succeeds with path "f" but the source's
`confirm_tmpfile` reports the file not found. -/
def worldConfirmNotFound : World :=
  { baseWorld with
      mktmpfileResp := fun _ => .ok "f"
      confirmResp := fun _ _ => .error ConfirmErr.notFound }

/-- **C3** (counterexample).  When `confirm_tmpfile` returns NotFound,
the probe re-raises NotFound: the failure kind is NotFound, not the
Invalid kind the claim states. -/
theorem c3_counterexample :
    (mounted_on_same_shared_storage worldConfirmNotFound inst512 "B").1 =
        .error Err.notFound ∧
      exceptKind (mounted_on_same_shared_storage worldConfirmNotFound inst512 "B").1 ≠
        some ErrKind.invalidK :=
  ⟨rfl, by decide⟩

/-- **C3** (amended).  If the destination `mktmpfile` call fails, the
probe fails RemoteError; if the source `confirm_tmpfile` call returns
NotFound, the probe fails NotFound (the "not shared" verdict), which is
distinguishable from RemoteError. -/
theorem c3_probe_error_kinds :
    (∀ w inst dest, w.mktmpfileResp (queue_get_for compute_topic dest) = .error () →
        (mounted_on_same_shared_storage w inst dest).1 = .error Err.remoteError) ∧
      (∀ w inst dest f, w.mktmpfileResp (queue_get_for compute_topic dest) = .ok f →
        w.confirmResp (queue_get_for compute_topic inst.host) f =
          .error ConfirmErr.notFound →
        (mounted_on_same_shared_storage w inst dest).1 = .error Err.notFound) ∧
      Err.notFound ≠ Err.remoteError := by
  refine ⟨fun w inst dest h => ?_, fun w inst dest f h1 h2 => ?_, by decide⟩
  · simp only [mounted_on_same_shared_storage, h]
  · simp only [mounted_on_same_shared_storage, h1, h2]

/-- **C3** (witness): concrete worlds exercising both probe failure
modes. -/
theorem c3_probe_error_kinds_witness :
    (mounted_on_same_shared_storage worldMkFail inst512 "B").1 =
        .error Err.remoteError ∧
      (mounted_on_same_shared_storage worldConfirmNotFound inst512 "B").1 =
        .error Err.notFound :=
  ⟨c3_probe_error_kinds.1 worldMkFail inst512 "B" rfl,
    c3_probe_error_kinds.2.1 worldConfirmNotFound inst512 "B" "f" rfl rfl⟩

/-- A "volume" topic service whose heartbeat is stale at time 1000. -/
def svcVolDown : Service where
  host := "v1"
  topic := "volume"
  updated_at := some 0
  created_at := 0
  compute_service := []

/-- A "volume" topic service with a fresh heartbeat at time 1000. -/
def svcVolUp : Service where
  host := "v2"
  topic := "volume"
  updated_at := some 1000
  created_at := 900
  compute_service := []

/-- The 512 MB instance with one attached volume. -/
def instWithVol : Instance :=
  { inst512 with volumes := [{ id := 5, status := "in-use" }] }

/-- World whose volume-service list has a dead service first and a live
one second, and a live compute service on the instance's host "A". -/
def worldVolFirstDown : World :=
  { baseWorld with
      servicesByTopic := fun t => if t = "volume" then [svcVolDown, svcVolUp] else []
      computeByHost := fun h => if h = "A" then [svcCapB 0] else [] }

/-- **C6** (counterexample).  The source check inspects only the first
registered "volume" service: with a dead service first and a live one
second, it fails Invalid even though a live volume service exists. -/
theorem c6_counterexample :
    live_migration_src_check worldVolFirstDown instWithVol =
        .error (.invalid "volume node is not alive(time synchronize problem?)") ∧
      svcVolUp ∈ service_get_all_by_topic worldVolFirstDown "volume" ∧
      service_is_up worldVolFirstDown svcVolUp = true :=
  ⟨rfl, by decide, by decide⟩

/-- **C6** (amended).  For a running workload with attached volumes, the
source check fails Invalid unless the repository's "volume" service list
is non-empty and its *first* entry is up; for a workload with no
attached volumes the volume-service records are never consulted (the
check's outcome is independent of them). -/
theorem c6_volume_service_check :
    (∀ w inst, inst.state = PowerState.running →
        inst.state_description = "running" → inst.volumes ≠ [] →
        service_get_all_by_topic w "volume" = [] →
        live_migration_src_check w inst =
          .error (.invalid "volume node is not alive(time synchronize problem?)")) ∧
      (∀ w inst s rest, inst.state = PowerState.running →
        inst.state_description = "running" → inst.volumes ≠ [] →
        service_get_all_by_topic w "volume" = s :: rest →
        service_is_up w s = false →
        live_migration_src_check w inst =
          .error (.invalid "volume node is not alive(time synchronize problem?)")) ∧
      ∀ w w' inst, inst.volumes = [] →
        w'.now = w.now → w'.service_down_time = w.service_down_time →
        w'.computeByHost = w.computeByHost →
        live_migration_src_check w inst = live_migration_src_check w' inst := by
  refine ⟨fun w inst h1 h2 h3 h4 => ?_, fun w inst s rest h1 h2 h3 h4 h5 => ?_,
    fun w w' inst hvol hnow hsdt hch => ?_⟩
  · have hcond : ¬(PowerState.running ≠ inst.state ∨
        "running" ≠ inst.state_description) := by
      rw [h1, h2]; simp
    have hlen : inst.volumes.length ≠ 0 := by
      simpa [List.length_eq_zero] using h3
    simp only [live_migration_src_check, if_neg hcond, if_pos hlen, h4]
  · have hcond : ¬(PowerState.running ≠ inst.state ∨
        "running" ≠ inst.state_description) := by
      rw [h1, h2]; simp
    have hlen : inst.volumes.length ≠ 0 := by
      simpa [List.length_eq_zero] using h3
    simp only [live_migration_src_check, if_neg hcond, if_pos hlen, h4, h5]
    simp
  · have hsu : ∀ s, service_is_up w' s = service_is_up w s := fun s => by
      unfold service_is_up; rw [hnow, hsdt]
    simp only [live_migration_src_check, service_get_all_compute_by_host,
      hvol, hch, hsu, List.length_nil]
    simp

/-- **C6** (witness for the amended theorem): the dead-first world makes
the source check fail Invalid. -/
theorem c6_volume_service_check_witness :
    live_migration_src_check worldVolFirstDown instWithVol =
      .error (.invalid "volume node is not alive(time synchronize problem?)") :=
  c6_volume_service_check.2.1 worldVolFirstDown instWithVol svcVolDown [svcVolUp]
    rfl rfl (by decide) (by decide) (by decide)

/-- An instance in SHUTDOWN state. -/
def instStopped : Instance :=
  { inst512 with
      hostname := "i-9"
      state := PowerState.shutdown
      state_description := "stopped" }

/-- World holding only the stopped instance, with working RPC agents
(so that any RPC issued would be visible in the trace). -/
def worldStopped : World :=
  { baseWorld with
      instances := [(7, instStopped)]
      mktmpfileResp := fun _ => .ok "f" }

/-- **C9**.  For a workload whose state is not RUNNING or whose
state-description is not "running", `schedule_live_migration` fails
Invalid with the not-running message, the world is unchanged, and the
effect trace is empty — in particular no RPC was issued. -/
theorem c9_not_running_fails_before_rpc :
    ∀ w iid dest inst,
      instance_get w iid = .ok inst →
      (inst.state ≠ PowerState.running ∨ inst.state_description ≠ "running") →
      schedule_live_migration w iid dest =
        (.error (.invalid ("Instance(" ++ inst.hostname ++ ") is not running")),
          w, []) := by
  intro w iid dest inst hi hbad
  have hcond : PowerState.running ≠ inst.state ∨
      "running" ≠ inst.state_description := by
    rcases hbad with h | h
    · exact Or.inl fun he => h he.symm
    · exact Or.inr fun he => h he.symm
  have hs : live_migration_src_check w inst =
      .error (.invalid ("Instance(" ++ inst.hostname ++ ") is not running")) := by
    simp only [live_migration_src_check, if_pos hcond]
  simp only [schedule_live_migration, hi, hs]

/-- **C9** (witness): the stopped instance aborts with an empty trace. -/
theorem c9_not_running_fails_before_rpc_witness :
    schedule_live_migration worldStopped 7 "B" =
      (.error (.invalid "Instance(i-9) is not running"), worldStopped, []) :=
  c9_not_running_fails_before_rpc worldStopped 7 "B" instStopped rfl
    (Or.inl (by decide))

/-- Compute-service row of the launch host "A". -/
def csA : ComputeService where
  memory_mb := 2048
  memory_mb_used := 0
  hypervisor_type := "qemu"
  hypervisor_version := 1
  cpu_info := "cpuA"

/-- Compute-service row of the destination host "B": same hypervisor
type, newer version, 2048 MB free. -/
def csB : ComputeService where
  memory_mb := 2048
  memory_mb_used := 0
  hypervisor_type := "qemu"
  hypervisor_version := 2
  cpu_info := "cpuB"

/-- Live compute service on host "A". -/
def svcA : Service where
  host := "A"
  topic := "compute"
  updated_at := some 1000
  created_at := 900
  compute_service := [csA]

/-- Live compute service on host "B". -/
def svcB : Service where
  host := "B"
  topic := "compute"
  updated_at := some 1000
  created_at := 900
  compute_service := [csB]

/-- The end-to-end world: instance 1 (running on "A", launched on "A",
512 MB, no volumes), both hosts live, shared storage confirmed by the
probe, CPU probe succeeding. -/
def worldE2E : World :=
  { baseWorld with
      instances := [(1, inst512)]
      computeByHost := fun h =>
        if h = "A" then [svcA] else if h = "B" then [svcB] else []
      mktmpfileResp := fun _ => .ok "tmpfile"
      confirmResp := fun _ _ => .ok ()
      compareCpuResp := fun _ _ => .ok () }

/-- **C5**.  With the shared-storage probe succeeding, the common check
compares the hypervisor identity of the workload's *launch* host
(`launched_on`) against the destination: different type strings fail
Invalid; equal types with the launch host's version strictly greater
fail Invalid; equal types and launch version ≤ destination version pass
both steps, leaving only the CPU probe (result ok or RemoteError). -/
theorem c5_hypervisor_compat_launch_host :
    ∀ (w : World) (inst : Instance) (dest f : String) (sd : Service)
      (rd : List Service) (csd : ComputeService) (cd : List ComputeService)
      (so : Service) (ro : List Service) (cso : ComputeService)
      (co : List ComputeService),
      w.mktmpfileResp (queue_get_for compute_topic dest) = .ok f →
      w.confirmResp (queue_get_for compute_topic inst.host) f = .ok () →
      w.computeByHost dest = sd :: rd →
      sd.compute_service = csd :: cd →
      w.computeByHost inst.launched_on = so :: ro →
      so.compute_service = cso :: co →
      (cso.hypervisor_type ≠ csd.hypervisor_type →
          exceptKind (live_migration_common_check w inst dest).1 =
            some ErrKind.invalidK) ∧
        (cso.hypervisor_type = csd.hypervisor_type →
          cso.hypervisor_version > csd.hypervisor_version →
          exceptKind (live_migration_common_check w inst dest).1 =
            some ErrKind.invalidK) ∧
        (cso.hypervisor_type = csd.hypervisor_type →
          cso.hypervisor_version ≤ csd.hypervisor_version →
          (live_migration_common_check w inst dest).1 = .ok () ∨
            (live_migration_common_check w inst dest).1 = .error Err.remoteError) := by
  intro w inst dest f sd rd csd cd so ro cso co hmk hcf hd hdc ho hoc
  have hmount : mounted_on_same_shared_storage w inst dest =
      (.ok (), [Eff.rpcCall "mktmpfile" (queue_get_for compute_topic dest),
        Eff.rpcCall "confirm_tmpfile" (queue_get_for compute_topic inst.host)]) := by
    simp only [mounted_on_same_shared_storage, hmk, hcf]
  refine ⟨fun hty => ?_, fun hty hver => ?_, fun hty hver => ?_⟩
  · simp only [live_migration_common_check, hmount,
      service_get_all_compute_by_host, hd, hdc, ho, hoc, if_pos hty,
      exceptKind, Err.kind]
  · simp [live_migration_common_check, hmount,
      service_get_all_compute_by_host, hd, hdc, ho, hoc, hty, hver,
      exceptKind, Err.kind]
  · cases hc : w.compareCpuResp (queue_get_for compute_topic dest) cso.cpu_info with
    | error e =>
      simp [live_migration_common_check, hmount,
        service_get_all_compute_by_host, hd, hdc, ho, hoc, hty,
        not_lt.mpr hver, hc]
    | ok u =>
      simp [live_migration_common_check, hmount,
        service_get_all_compute_by_host, hd, hdc, ho, hoc, hty,
        not_lt.mpr hver, hc]

/-- **C5** (witness): in the end-to-end world ("qemu" version 1 launch
host vs "qemu" version 2 destination) the hypervisor steps pass. -/
theorem c5_hypervisor_compat_launch_host_witness :
    (live_migration_common_check worldE2E inst512 "B").1 = .ok () ∨
      (live_migration_common_check worldE2E inst512 "B").1 = .error Err.remoteError :=
  (c5_hypervisor_compat_launch_host worldE2E inst512 "B" "tmpfile" svcB [] csB []
      svcA [] csA [] rfl rfl (by decide) rfl (by decide) rfl).2.2 rfl (by decide)

/-- The storage probe issues only RPC effects, never repository writes. -/
theorem mounted_trace_no_writes (w : World) (inst : Instance) (dest : String) :
    effWrites (mounted_on_same_shared_storage w inst dest).2 = [] := by
  simp only [mounted_on_same_shared_storage]
  split
  · simp [effWrites, Eff.isWrite]
  · split <;> simp [effWrites, Eff.isWrite]

/-- Appending an RPC call to a trace adds no write effect. -/
theorem effWrites_append_rpc (t : List Eff) (m q : String) :
    effWrites (t ++ [Eff.rpcCall m q]) = effWrites t := by
  simp [effWrites, List.filter_append, Eff.isWrite]

/-- The common check issues only RPC effects, never repository writes. -/
theorem common_trace_no_writes (w : World) (inst : Instance) (dest : String) :
    effWrites (live_migration_common_check w inst dest).2 = [] := by
  have hm := mounted_trace_no_writes w inst dest
  simp only [live_migration_common_check]
  split
  · next e t heq =>
    rw [heq] at hm
    exact hm
  · next u t heq =>
    rw [heq] at hm
    repeat' split
    all_goals try rw [effWrites_append_rpc]
    all_goals exact hm

/-- **C2**.  If the pipeline fails — in particular if any of the source,
destination, or common checks fails — the whole call returns an error,
the world is unchanged, and no repository-write effect was issued;
conversely a failing check (evaluated independently) makes the call
fail, so writes can only happen after all three check phases succeed. -/
theorem c2_fail_fast_no_mutation :
    ∀ (w : World) (iid : Nat) (dest : String),
      (∀ e, (schedule_live_migration w iid dest).1 = .error e →
        (schedule_live_migration w iid dest).2.1 = w ∧
          effWrites (schedule_live_migration w iid dest).2.2 = []) ∧
        ∀ inst, instance_get w iid = .ok inst →
          (isError (live_migration_src_check w inst) = true ∨
            isError (live_migration_dest_check w inst dest) = true ∨
            isError (live_migration_common_check w inst dest).1 = true) →
          isError (schedule_live_migration w iid dest).1 = true := by
  intro w iid dest
  constructor
  · intro e he
    cases hi : instance_get w iid with
    | error e0 => simp [schedule_live_migration, hi, effWrites]
    | ok inst =>
      cases hs : live_migration_src_check w inst with
      | error e1 => simp [schedule_live_migration, hi, hs, effWrites]
      | ok u =>
        cases u
        cases hd : live_migration_dest_check w inst dest with
        | error e2 => simp [schedule_live_migration, hi, hs, hd, effWrites]
        | ok u =>
          cases u
          have hct := common_trace_no_writes w inst dest
          cases hc : live_migration_common_check w inst dest with
          | mk r t =>
            rw [hc] at hct
            cases r with
            | error e3 =>
              simp only [schedule_live_migration, hi, hs, hd, hc]
              exact ⟨trivial, hct⟩
            | ok u =>
              cases u
              rw [schedule_live_migration] at he
              simp only [hi, hs, hd, hc] at he
              exact (Except.noConfusion he)
  · intro inst hi hdisj
    cases hs : live_migration_src_check w inst with
    | error e1 => simp [schedule_live_migration, hi, hs, isError]
    | ok u =>
      cases u
      cases hd : live_migration_dest_check w inst dest with
      | error e2 => simp [schedule_live_migration, hi, hs, hd, isError]
      | ok u =>
        cases u
        cases hc : live_migration_common_check w inst dest with
        | mk r t =>
          cases r with
          | error e3 => simp [schedule_live_migration, hi, hs, hd, hc, isError]
          | ok u =>
            cases u
            rcases hdisj with h | h | h
            · rw [hs] at h; simp [isError] at h
            · rw [hd] at h; simp [isError] at h
            · rw [hc] at h; simp [isError] at h

/-- **C2** (witness): a failing call (missing instance) leaves the world
unchanged with no write effects. -/
theorem c2_fail_fast_no_mutation_witness :
    (schedule_live_migration baseWorld 0 "B").2.1 = baseWorld ∧
      effWrites (schedule_live_migration baseWorld 0 "B").2.2 = [] :=
  (c2_fail_fast_no_mutation baseWorld 0 "B").1 Err.notFound rfl

/-- The source check passes for a running, volume-less workload whose
host has a live compute service. -/
theorem live_migration_src_check_ok (w : World) (inst : Instance)
    (sa : Service) (ra : List Service)
    (h1 : inst.state = PowerState.running)
    (h2 : inst.state_description = "running")
    (h3 : inst.volumes = [])
    (h4 : w.computeByHost inst.host = sa :: ra)
    (h5 : service_is_up w sa = true) :
    live_migration_src_check w inst = .ok () := by
  have hcond : ¬(PowerState.running ≠ inst.state ∨
      "running" ≠ inst.state_description) := by
    rw [h1, h2]; simp
  have hlen : ¬inst.volumes.length ≠ 0 := by simp [h3]
  simp [live_migration_src_check, if_neg hcond, if_neg hlen, h3,
    service_get_all_compute_by_host, h4, h5]

/-- The destination check passes for a live destination distinct from
the source with strict memory headroom. -/
theorem live_migration_dest_check_ok (w : World) (inst : Instance)
    (dest : String) (sb : Service) (rb : List Service)
    (csb : ComputeService) (cb : List ComputeService)
    (h1 : w.computeByHost dest = sb :: rb)
    (h2 : service_is_up w sb = true)
    (h3 : dest ≠ inst.host)
    (h4 : sb.compute_service = csb :: cb)
    (h5 : csb.memory_mb - csb.memory_mb_used > inst.memory_mb) :
    live_migration_dest_check w inst dest = .ok () := by
  have hcap : has_enough_resources w inst dest = .ok () := by
    simp only [has_enough_resources, service_get_all_compute_by_host, h1, h4,
      if_neg (not_le.mpr h5)]
  simp [live_migration_dest_check, service_get_all_compute_by_host,
    h1, h2, h3, hcap]

/-- The common check passes when the storage probe succeeds, the launch
host's hypervisor matches the destination's, and the CPU probe succeeds. -/
theorem live_migration_common_check_ok (w : World) (inst : Instance)
    (dest f : String) (sd : Service) (rd : List Service)
    (csd : ComputeService) (cd : List ComputeService)
    (so : Service) (ro : List Service) (cso : ComputeService)
    (co : List ComputeService)
    (hmk : w.mktmpfileResp (queue_get_for compute_topic dest) = .ok f)
    (hcf : w.confirmResp (queue_get_for compute_topic inst.host) f = .ok ())
    (hd : w.computeByHost dest = sd :: rd)
    (hdc : sd.compute_service = csd :: cd)
    (ho : w.computeByHost inst.launched_on = so :: ro)
    (hoc : so.compute_service = cso :: co)
    (hty : cso.hypervisor_type = csd.hypervisor_type)
    (hver : cso.hypervisor_version ≤ csd.hypervisor_version)
    (hcpu : w.compareCpuResp (queue_get_for compute_topic dest) cso.cpu_info = .ok ()) :
    (live_migration_common_check w inst dest).1 = .ok () := by
  simp [live_migration_common_check, mounted_on_same_shared_storage, hmk, hcf,
    service_get_all_compute_by_host, hd, hdc, ho, hoc, hty,
    not_lt.mpr hver, hcpu]

/-- `instance_set_state`'s assoc-map update is visible to a subsequent
lookup of the same key. -/
theorem lookup_map_set_state (l : List (Nat × Instance)) (iid : Nat)
    (inst : Instance) (st : PowerState) (d : String)
    (h : l.lookup iid = some inst) :
    (l.map fun p => if p.1 = iid then
        (p.1, { p.2 with state := st, state_description := d })
      else p).lookup iid =
      some { inst with state := st, state_description := d } := by
  induction l with
  | nil => simp [List.lookup] at h
  | cons p l ih =>
    obtain ⟨k, v⟩ := p
    rw [List.map_cons]
    simp only []
    by_cases hk : k = iid
    · rw [if_pos hk]
      subst hk
      have hv : v = inst := by simpa [List.lookup] using h
      subst hv
      simp [List.lookup]
    · rw [if_neg hk]
      have hbk : (iid == k) = false :=
        beq_eq_false_iff_ne.mpr fun he => hk he.symm
      have h' : List.lookup iid l = some inst := by
        simpa [List.lookup, hbk] using h
      simpa [List.lookup, hbk] using ih h'

/-- Compute service of host "A" with a stale heartbeat at time 1000. -/
def svcADown : Service :=
  { svcA with
      updated_at := some 0
      created_at := 0 }

/-- The end-to-end world, except that the source host "A"'s compute
service heartbeat is stale.  Every condition C1 states still holds. -/
def worldE2EsrcDown : World :=
  { worldE2E with computeByHost := fun h =>
      if h = "A" then [svcADown] else if h = "B" then [svcB] else [] }

/-- **C1** (counterexample).  A world satisfying every condition the
claim states — running/"running" workload on host "A" launched on "A"
with no volumes, live destination "B" with matching hypervisor type,
newer version, ample free memory, and shared storage — but whose source
host "A" has a stale heartbeat: the call fails Invalid instead of
returning "A" and pausing the workload. -/
theorem c1_counterexample :
    (schedule_live_migration worldE2EsrcDown 1 "B").1 =
        .error (.invalid "A is not alive(time synchronize problem?)") ∧
      service_is_up worldE2EsrcDown svcB = true ∧
      csB.hypervisor_type = csA.hypervisor_type ∧
      csA.hypervisor_version ≤ csB.hypervisor_version ∧
      csB.memory_mb - csB.memory_mb_used > inst512.memory_mb :=
  ⟨rfl, by decide, by decide, by decide, by decide⟩

/-- **C1** (amended).  Under the claim's scenario plus the implicit
preconditions the code requires — the source host's compute service is
also live, the destination differs from the source, and the remote CPU
probe succeeds — `schedule_live_migration` returns the pre-transition
current host A and sets the workload to PAUSED/"migrating". -/
theorem c1_end_to_end (w : World) (iid : Nat) (A B : String) (inst : Instance)
    (sa sb : Service) (ra rb : List Service) (csa csb : ComputeService)
    (ca cb : List ComputeService) (f : String)
    (hlook : instance_get w iid = .ok inst)
    (hst : inst.state = PowerState.running)
    (hdesc : inst.state_description = "running")
    (hhost : inst.host = A)
    (hlaunch : inst.launched_on = A)
    (hvol : inst.volumes = [])
    (hAsvc : w.computeByHost A = sa :: ra)
    (hAcs : sa.compute_service = csa :: ca)
    (hAup : service_is_up w sa = true)
    (hBsvc : w.computeByHost B = sb :: rb)
    (hBcs : sb.compute_service = csb :: cb)
    (hBup : service_is_up w sb = true)
    (hne : B ≠ A)
    (hty : csb.hypervisor_type = csa.hypervisor_type)
    (hver : csa.hypervisor_version ≤ csb.hypervisor_version)
    (hmem : csb.memory_mb - csb.memory_mb_used > inst.memory_mb)
    (hmk : w.mktmpfileResp (queue_get_for compute_topic B) = .ok f)
    (hcf : w.confirmResp (queue_get_for compute_topic A) f = .ok ())
    (hcpu : w.compareCpuResp (queue_get_for compute_topic B) csa.cpu_info = .ok ()) :
    (schedule_live_migration w iid B).1 = .ok A ∧
      instance_get (schedule_live_migration w iid B).2.1 iid =
        .ok { inst with
                state := PowerState.paused
                state_description := "migrating" } := by
  subst hhost
  have hl : w.instances.lookup iid = some inst := by
    unfold instance_get at hlook
    cases h : w.instances.lookup iid with
    | none => rw [h] at hlook; exact (Except.noConfusion hlook)
    | some i =>
      rw [h] at hlook
      injection hlook with hi
      rw [hi]
  have hsrc := live_migration_src_check_ok w inst sa ra hst hdesc hvol hAsvc hAup
  have hdest := live_migration_dest_check_ok w inst B sb rb csb cb
    hBsvc hBup hne hBcs hmem
  have ho : w.computeByHost inst.launched_on = sa :: ra := by
    rw [hlaunch]; exact hAsvc
  have hcommon := live_migration_common_check_ok w inst B f sb rb csb cb
    sa ra csa ca hmk hcf hBsvc hBcs ho hAcs
    (by rw [hty]) hver hcpu
  cases hc : live_migration_common_check w inst B with
  | mk r t =>
    rw [hc] at hcommon
    simp only at hcommon
    cases r with
    | error e => exact (Except.noConfusion hcommon)
    | ok u =>
      cases u
      simp only [schedule_live_migration, hlook, hsrc, hdest, hc]
      refine ⟨trivial, ?_⟩
      rw [hvol]
      simp only [List.foldl]
      simp only [instance_get, instance_set_state]
      rw [lookup_map_set_state w.instances iid inst PowerState.paused
        "migrating" hl]
      simp [hvol]

/-- **C1** (witness): the concrete end-to-end world, instance 1 on "A"
migrating to "B". -/
theorem c1_end_to_end_witness :
    (schedule_live_migration worldE2E 1 "B").1 = .ok "A" ∧
      instance_get (schedule_live_migration worldE2E 1 "B").2.1 1 =
        .ok { inst512 with
                state := PowerState.paused
                state_description := "migrating" } :=
  c1_end_to_end worldE2E 1 "A" "B" inst512 svcA svcB [] [] csA csB [] [] "tmpfile"
    rfl rfl rfl rfl rfl rfl (by decide) rfl (by decide) (by decide) rfl
    (by decide) (by decide) rfl (by decide) (by decide) rfl rfl rfl

end Nova
